import Mathlib

/-!
Verification development for the MS_RF_Board firmware
(Real-Time Monitoring & Supervision Subsystem).

Shallow embedding conventions:
* C `float`/`double` arithmetic is embedded as exact rational arithmetic (`ℚ`);
  every quantity the claims mention (0.1, 12.6, 9.0, 10.8, ...) is exactly
  representable, and the spec states its numeric facts as exact equalities.
* C machine integers appear only as buffer cursors (always reduced mod 5) and
  millisecond counts; they are embedded as `Fin 5` and `ℕ`/`ℤ`.
* Static mutable module state (`app_current_limit`, the debounce buffers) is
  embedded by explicit state passing: a setter maps the old state to the new
  state, a getter reads a state value.
-/

namespace MSRFBoard

/-! ### CurrentSensing: app current limit (current_sensing.c) -/

/-- `#define CURRENT_LIMIT_SAFE 0.1  // 100 mA human safety limit`
(current_sensing.c line 28). -/
def CURRENT_LIMIT_SAFE : ℚ := 0.1

/-- `static float app_current_limit = CURRENT_LIMIT_SAFE;`
(current_sensing.c line 29): the initial value of the stored limit. -/
def app_current_limit_init : ℚ := CURRENT_LIMIT_SAFE

/-- `current_sensing_set_limit` (current_sensing.c lines 156-159):
`app_current_limit = (limit <= CURRENT_LIMIT_SAFE) ? limit : CURRENT_LIMIT_SAFE;`
returns the new value of the static `app_current_limit`. -/
def current_sensing_set_limit (limit : ℚ) : ℚ :=
  if limit ≤ CURRENT_LIMIT_SAFE then limit else CURRENT_LIMIT_SAFE

/-- `current_sensing_get_limit` (current_sensing.c lines 166-168):
`return app_current_limit;` -/
def current_sensing_get_limit (app_current_limit : ℚ) : ℚ :=
  app_current_limit

/-! ### BatteryMonitoring: state of charge (battery_monitoring.c) -/

/-- `#define BATTERY_FULL_VOLTAGE 12.6` (battery_monitoring.c line 24). -/
def BATTERY_FULL_VOLTAGE : ℚ := 12.6

/-- `#define BATTERY_EMPTY_VOLTAGE 9.0` (battery_monitoring.c line 25). -/
def BATTERY_EMPTY_VOLTAGE : ℚ := 9.0

/-- A C `(int)` cast applied to a non-integral value: truncation toward zero
(floor for non-negative arguments, ceiling for negative ones). -/
def c_int_cast (x : ℚ) : ℤ :=
  if 0 ≤ x then ⌊x⌋ else ⌈x⌉

/-- `calculate_soc` (battery_monitoring.c lines 133-141):
```
if (voltage >= BATTERY_FULL_VOLTAGE) return 100;
else if (voltage <= BATTERY_EMPTY_VOLTAGE) return 0;
else return (int)(((voltage - BATTERY_EMPTY_VOLTAGE)
                   / (BATTERY_FULL_VOLTAGE - BATTERY_EMPTY_VOLTAGE)) * 100);
``` -/
def calculate_soc (voltage : ℚ) : ℤ :=
  if BATTERY_FULL_VOLTAGE ≤ voltage then 100
  else if voltage ≤ BATTERY_EMPTY_VOLTAGE then 0
  else c_int_cast
    ((voltage - BATTERY_EMPTY_VOLTAGE) / (BATTERY_FULL_VOLTAGE - BATTERY_EMPTY_VOLTAGE) * 100)

/-! ### Theorems for claims C1 and C10 (current limit) -/

/-- C1: for every requested value, `current_sensing_set_limit(requested)` stores
`min(requested, SAFE_MAX)` with `SAFE_MAX = 0.1`, and a subsequent
`current_sensing_get_limit()` returns that stored value; in particular
`set_limit(5.0)` then `get_limit()` yields `0.1` (never `5.0`), `set_limit(0.05)`
then `get_limit()` yields `0.05`, and the returned limit never exceeds `0.1`. -/
theorem C1_current_limit_clamp :
    (∀ requested : ℚ,
        current_sensing_set_limit requested = min requested CURRENT_LIMIT_SAFE ∧
        current_sensing_get_limit (current_sensing_set_limit requested)
          = min requested CURRENT_LIMIT_SAFE ∧
        current_sensing_get_limit (current_sensing_set_limit requested) ≤ 0.1) ∧
    CURRENT_LIMIT_SAFE = 0.1 ∧
    current_sensing_get_limit (current_sensing_set_limit 5) = 0.1 ∧
    current_sensing_get_limit (current_sensing_set_limit 5) ≠ 5 ∧
    current_sensing_get_limit (current_sensing_set_limit 0.05) = 0.05 := by
  refine ⟨fun requested => ?_, by norm_num [CURRENT_LIMIT_SAFE],
    by norm_num [current_sensing_get_limit, current_sensing_set_limit, CURRENT_LIMIT_SAFE],
    by norm_num [current_sensing_get_limit, current_sensing_set_limit, CURRENT_LIMIT_SAFE],
    by norm_num [current_sensing_get_limit, current_sensing_set_limit, CURRENT_LIMIT_SAFE]⟩
  have hmin : current_sensing_set_limit requested = min requested CURRENT_LIMIT_SAFE := by
    unfold current_sensing_set_limit
    split_ifs with h
    · exact (min_eq_left h).symm
    · exact (min_eq_right (le_of_not_le h)).symm
  refine ⟨hmin, hmin, ?_⟩
  have : min requested CURRENT_LIMIT_SAFE ≤ CURRENT_LIMIT_SAFE := min_le_right _ _
  simp only [current_sensing_get_limit, hmin]
  exact le_trans this (by norm_num [CURRENT_LIMIT_SAFE])

/-- C10: the stored current limit starts at the safety ceiling `0.1`; every
`set_limit` call stores a value `≤ 0.1`; and `set_limit` imposes no lower bound,
so any negative request is stored and returned verbatim. -/
theorem C10_current_limit_invariant :
    app_current_limit_init = 0.1 ∧
    app_current_limit_init ≤ 0.1 ∧
    (∀ requested : ℚ, current_sensing_set_limit requested ≤ 0.1) ∧
    (∀ requested : ℚ, requested < 0 →
        current_sensing_get_limit (current_sensing_set_limit requested) = requested) := by
  refine ⟨by norm_num [app_current_limit_init, CURRENT_LIMIT_SAFE],
    by norm_num [app_current_limit_init, CURRENT_LIMIT_SAFE],
    fun requested => ?_, fun requested h => ?_⟩
  · unfold current_sensing_set_limit CURRENT_LIMIT_SAFE
    split_ifs with hle
    · exact le_trans hle (by norm_num)
    · norm_num
  · have hle : requested ≤ CURRENT_LIMIT_SAFE :=
      le_trans (le_of_lt h) (by norm_num [CURRENT_LIMIT_SAFE])
    simp [current_sensing_get_limit, current_sensing_set_limit, hle]

/-- Witness for C10: at the concrete negative request `-1`, the stored and
returned limit is exactly `-1`. -/
theorem C10_current_limit_invariant_witness :
    current_sensing_get_limit (current_sensing_set_limit (-1)) = -1 :=
  C10_current_limit_invariant.2.2.2 (-1) (by norm_num)

/-! ### Theorems for claims C2 and C9 (state of charge) -/

/-- The reference voltages evaluate to the exact rationals `63/5` and `9`. -/
theorem battery_voltage_constants :
    BATTERY_FULL_VOLTAGE = 63 / 5 ∧ BATTERY_EMPTY_VOLTAGE = 9 := by
  constructor <;> norm_num [BATTERY_FULL_VOLTAGE, BATTERY_EMPTY_VOLTAGE]

/-- In the interpolating branch the cast argument is non-negative, so the C
`(int)` cast is exactly the floor. -/
theorem calculate_soc_mid (v : ℚ) (h9 : 9 < v) (h126 : v < 63 / 5) :
    calculate_soc v = ⌊(v - 9) / (63 / 5 - 9) * 100⌋ := by
  obtain ⟨hF, hE⟩ := battery_voltage_constants
  unfold calculate_soc c_int_cast
  rw [hF, hE]
  have h1 : ¬ (63 / 5 : ℚ) ≤ v := by linarith
  have h2 : ¬ v ≤ (9 : ℚ) := by linarith
  have hpos : (0 : ℚ) ≤ (v - 9) / (63 / 5 - 9) * 100 := by
    have hnum : (0 : ℚ) ≤ v - 9 := by linarith
    positivity
  simp [h1, h2, hpos]

/-- C2: `calculate_soc v` returns `100` when `v ≥ 12.6`, `0` when `v ≤ 9.0`, and
otherwise the round-down truncation of `((v - 9.0) / (12.6 - 9.0)) * 100`; in
particular `soc(12.6) = 100`, `soc(9.0) = 0`, `soc(10.8) = 50` exactly, and at
`v = 10` the exact ratio `250/9 = 27.77…` truncates down to `27`, not up to `28`
(round-down, not rounding). -/
theorem C2_soc_piecewise :
    (∀ v : ℚ, 12.6 ≤ v → calculate_soc v = 100) ∧
    (∀ v : ℚ, v ≤ 9 → calculate_soc v = 0) ∧
    (∀ v : ℚ, 9 < v → v < 12.6 →
        calculate_soc v = ⌊(v - 9) / (12.6 - 9) * 100⌋) ∧
    calculate_soc 12.6 = 100 ∧
    calculate_soc 9 = 0 ∧
    calculate_soc 10.8 = 50 ∧
    calculate_soc 10 = 27 := by
  obtain ⟨hF, hE⟩ := battery_voltage_constants
  have h126 : (12.6 : ℚ) = 63 / 5 := by norm_num
  have hfull : ∀ v : ℚ, (12.6 : ℚ) ≤ v → calculate_soc v = 100 := by
    intro v hv
    rw [h126] at hv
    unfold calculate_soc
    rw [hF]
    simp [hv]
  have hempty : ∀ v : ℚ, v ≤ 9 → calculate_soc v = 0 := by
    intro v hv
    unfold calculate_soc
    rw [hF, hE]
    have h1 : ¬ (63 / 5 : ℚ) ≤ v := by linarith
    simp [h1, hv]
  have hmid : ∀ v : ℚ, 9 < v → v < 12.6 →
      calculate_soc v = ⌊(v - 9) / (12.6 - 9) * 100⌋ := by
    intro v h9 hv
    rw [h126] at hv ⊢
    exact calculate_soc_mid v h9 hv
  refine ⟨hfull, hempty, hmid, hfull 12.6 le_rfl, hempty 9 le_rfl, ?_, ?_⟩
  · rw [hmid 10.8 (by norm_num) (by norm_num)]
    rw [show ((10.8 : ℚ) - 9) / (12.6 - 9) * 100 = 50 by norm_num]
    norm_num
  · rw [hmid 10 (by norm_num) (by norm_num)]
    rw [show ((10 : ℚ) - 9) / (12.6 - 9) * 100 = 250 / 9 by norm_num]
    rw [Int.floor_eq_iff]
    constructor <;> norm_num

/-- Witness for C2: instantiating the piecewise parts at `v = 13`, `v = 8` and
`v = 10` gives `soc(13) = 100`, `soc(8) = 0`, and `soc(10) = ⌊250/9⌋`. -/
theorem C2_soc_piecewise_witness :
    calculate_soc 13 = 100 ∧ calculate_soc 8 = 0 ∧
    calculate_soc 10 = ⌊((10 : ℚ) - 9) / (12.6 - 9) * 100⌋ :=
  ⟨C2_soc_piecewise.1 13 (by norm_num),
   C2_soc_piecewise.2.1 8 (by norm_num),
   C2_soc_piecewise.2.2.1 10 (by norm_num) (by norm_num)⟩

/-- C9: for every input voltage, `calculate_soc` returns an integer percentage
in the closed interval `[0, 100]`. -/
theorem C9_soc_bounded (v : ℚ) :
    0 ≤ calculate_soc v ∧ calculate_soc v ≤ 100 := by
  obtain ⟨hF, hE⟩ := battery_voltage_constants
  rcases le_or_lt (63 / 5 : ℚ) v with hfull | hltfull
  · have : calculate_soc v = 100 := by
      unfold calculate_soc; rw [hF]; simp [hfull]
    rw [this]; exact ⟨by norm_num, le_rfl⟩
  rcases le_or_lt v (9 : ℚ) with hempty | hgt
  · have : calculate_soc v = 0 := by
      unfold calculate_soc
      rw [hF, hE]
      have h1 : ¬ (63 / 5 : ℚ) ≤ v := by linarith
      simp [h1, hempty]
    rw [this]; exact ⟨le_rfl, by norm_num⟩
  · rw [calculate_soc_mid v hgt hltfull]
    constructor
    · refine Int.floor_nonneg.mpr ?_
      have hnum : (0 : ℚ) ≤ v - 9 := by linarith
      positivity
    · have hlt : (v - 9) / (63 / 5 - 9) * 100 < 100 := by
        have hrw : (v - 9) / ((63 : ℚ) / 5 - 9) * 100 = v * (500 / 18) - 250 := by ring
        rw [hrw]
        linarith
      exact le_of_lt (Int.floor_lt.mpr (by exact_mod_cast hlt))

/-! ### Debounce buffers (battery_monitoring.c, voltage_sensing.c, current_sensing.c)

Each module keeps a 5-slot circular buffer of the most recent samples plus a
write cursor reduced mod 5 (`DEBOUNCE_SAMPLES = 5` in battery_monitoring.c, the
literal `5` in voltage_sensing.c and current_sensing.c). -/

/-- One debounce channel: `static float last_measurements[5]` together with
`static int measurement_index` (the cursor is always in `0..4` because every
write is followed by `% 5`). -/
structure DebounceState where
  last_measurements : Fin 5 → ℚ
  measurement_index : Fin 5

/-- `update_debounce_buffer` (battery_monitoring.c lines 120-123):
`last_measurements[measurement_index] = voltage;`
`measurement_index = (measurement_index + 1) % DEBOUNCE_SAMPLES;` -/
def update_debounce_buffer (s : DebounceState) (voltage : ℚ) : DebounceState :=
  { last_measurements := Function.update s.last_measurements s.measurement_index voltage
    measurement_index := s.measurement_index + 1 }

/-- `get_debounced_voltage` (battery_monitoring.c lines 109-115): sum of the
five slots divided by `DEBOUNCE_SAMPLES`. -/
def get_debounced_voltage (s : DebounceState) : ℚ :=
  (∑ i, s.last_measurements i) / 5

/-- The buffer-update statements of `voltage_sensing_update`
(voltage_sensing.c lines 100-101), identical to the battery channel. -/
def voltage_sensing_update (s : DebounceState) (voltage : ℚ) : DebounceState :=
  { last_measurements := Function.update s.last_measurements s.measurement_index voltage
    measurement_index := s.measurement_index + 1 }

/-- `voltage_sensing_get_debounced` (voltage_sensing.c lines 85-91). -/
def voltage_sensing_get_debounced (s : DebounceState) : ℚ :=
  (∑ i, s.last_measurements i) / 5

/-- `current_sensor_t` (current_sensing.h): the two current sensors. -/
inductive current_sensor_t where
  | SENSOR_1
  | SENSOR_2
deriving DecidableEq

/-- The current-sensing module state: `static float last_measurements[2][5]`
and `static int measurement_index[2]` (current_sensing.c lines 30-31), one
buffer/cursor pair per sensor. -/
structure CurrentSensingState where
  last_measurements : current_sensor_t → Fin 5 → ℚ
  measurement_index : current_sensor_t → Fin 5

/-- The buffer-update statements of `current_sensing_update`
(current_sensing.c lines 135-136), applied to the row selected by `sensor`:
`last_measurements[index][measurement_index[index]] = current;`
`measurement_index[index] = (measurement_index[index] + 1) % 5;` -/
def current_sensing_update (st : CurrentSensingState) (sensor : current_sensor_t)
    (current : ℚ) : CurrentSensingState :=
  { last_measurements := Function.update st.last_measurements sensor
      (Function.update (st.last_measurements sensor) (st.measurement_index sensor) current)
    measurement_index := Function.update st.measurement_index sensor
      (st.measurement_index sensor + 1) }

/-- `current_sensing_get_debounced` (current_sensing.c lines 114-122): sum of
the selected sensor's five slots divided by `5.0`. -/
def current_sensing_get_debounced (st : CurrentSensingState)
    (sensor : current_sensor_t) : ℚ :=
  (∑ i, st.last_measurements sensor i) / 5

/-- The projection of one sensor's row of the current-sensing state onto a
single debounce channel. -/
def current_channel (st : CurrentSensingState) (sensor : current_sensor_t) :
    DebounceState :=
  { last_measurements := st.last_measurements sensor
    measurement_index := st.measurement_index sensor }

/-- `battery_monitoring_init` (battery_monitoring.c lines 71-74) zero-fills the
buffer; `measurement_index` has static initial value `0`. -/
def battery_monitoring_init : DebounceState :=
  { last_measurements := fun _ => 0
    measurement_index := 0 }

/-- Five consecutive pushes of the same value `v` into a debounce channel. -/
def push5 (f : DebounceState → ℚ → DebounceState) (s : DebounceState) (v : ℚ) :
    DebounceState :=
  f (f (f (f (f s v) v) v) v) v

/-- After five consecutive pushes of `v`, every slot of the buffer holds `v`,
whatever the prior contents and cursor position. -/
theorem push5_slots (buf : Fin 5 → ℚ) (i : Fin 5) (v : ℚ) (j : Fin 5) :
    (push5 update_debounce_buffer ⟨buf, i⟩ v).last_measurements j = v := by
  fin_cases i <;> fin_cases j <;>
    simp [push5, update_debounce_buffer, Function.update_apply, Fin.ext_iff]

/-- After five consecutive pushes of `v`, the moving average is exactly `v`. -/
theorem push5_average (s : DebounceState) (v : ℚ) :
    get_debounced_voltage (push5 update_debounce_buffer s v) = v := by
  obtain ⟨buf, i⟩ := s
  unfold get_debounced_voltage
  rw [Fin.sum_univ_five]
  rw [push5_slots buf i v 0, push5_slots buf i v 1, push5_slots buf i v 2,
    push5_slots buf i v 3, push5_slots buf i v 4]
  ring

/-- The voltage channel performs the identical buffer update. -/
theorem voltage_update_eq : voltage_sensing_update = update_debounce_buffer :=
  rfl

/-- The voltage channel performs the identical average. -/
theorem voltage_average_eq : voltage_sensing_get_debounced = get_debounced_voltage :=
  rfl

/-- Updating one current sensor acts on that sensor's row exactly as the
single-channel debounce update, and leaves the other row unchanged. -/
theorem current_channel_update (st : CurrentSensingState)
    (sensor : current_sensor_t) (v : ℚ) :
    current_channel (current_sensing_update st sensor v) sensor
      = update_debounce_buffer (current_channel st sensor) v := by
  simp [current_channel, current_sensing_update, update_debounce_buffer]

/-- The per-sensor debounced read is the single-channel average of that
sensor's row. -/
theorem current_channel_average (st : CurrentSensingState)
    (sensor : current_sensor_t) :
    current_sensing_get_debounced st sensor
      = get_debounced_voltage (current_channel st sensor) :=
  rfl

/-- Five consecutive updates of the same sensor with the same value `v`. -/
def current_push5 (st : CurrentSensingState) (sensor : current_sensor_t)
    (v : ℚ) : CurrentSensingState :=
  current_sensing_update (current_sensing_update (current_sensing_update
    (current_sensing_update (current_sensing_update st sensor v) sensor v)
      sensor v) sensor v) sensor v

/-- C3: for every prior buffer state and every constant value `v`, after five
consecutive pushes of `v` the debounced average is exactly `v`, identically for
the battery channel, the voltage channel, and each current-sensor channel. -/
theorem C3_debounce_convergence :
    (∀ (s : DebounceState) (v : ℚ),
        get_debounced_voltage (push5 update_debounce_buffer s v) = v) ∧
    (∀ (s : DebounceState) (v : ℚ),
        voltage_sensing_get_debounced (push5 voltage_sensing_update s v) = v) ∧
    (∀ (st : CurrentSensingState) (sensor : current_sensor_t) (v : ℚ),
        current_sensing_get_debounced (current_push5 st sensor v) sensor = v) := by
  refine ⟨push5_average, ?_, ?_⟩
  · intro s v
    rw [voltage_update_eq, voltage_average_eq]
    exact push5_average s v
  · intro st sensor v
    rw [current_channel_average, current_push5]
    rw [current_channel_update, current_channel_update, current_channel_update,
      current_channel_update, current_channel_update]
    exact push5_average (current_channel st sensor) v

/-- C4: a fresh battery debounce buffer has all five slots equal to `0`, its
average is `0`, and after exactly one push of `10.0` into the fresh buffer the
average is `2.0` (the four remaining zero-filled slots still count). -/
theorem C4_cold_start_bias :
    (∀ i : Fin 5, battery_monitoring_init.last_measurements i = 0) ∧
    get_debounced_voltage battery_monitoring_init = 0 ∧
    get_debounced_voltage (update_debounce_buffer battery_monitoring_init 10) = 2 := by
  refine ⟨fun i => rfl, ?_, ?_⟩
  · simp [get_debounced_voltage, battery_monitoring_init]
  · simp [get_debounced_voltage, update_debounce_buffer, battery_monitoring_init,
      Fin.sum_univ_five, Function.update_apply]
    norm_num

/-! ### Command parser (command_parser.c)

A C string argument is embedded as `Option (List Char)`: `none` is a NULL
pointer, `some s` a NUL-terminated string with characters `s`.  For a keyword
`k` of length `n`, `strncmp(command, k, n) == 0` holds exactly when the first
`n` characters of `command` are the characters of `k` (a shorter command fails
the comparison at its terminator), i.e. exactly when `command.take n = k`. -/

/-- `command_parser_parse` (command_parser.c lines 36-55): returns `false` for
a NULL or empty command, `true` when the command passes
`strncmp(command, "SET_FREQ", 8) == 0` or `strncmp(command, "GET_STATUS", 10) == 0`,
and `false` otherwise. -/
def command_parser_parse : Option (List Char) → Bool
  | none => false
  | some command =>
    if command.length = 0 then false
    else if command.take 8 = ("SET_FREQ").toList then true
    else if command.take 10 = ("GET_STATUS").toList then true
    else false

/-- The three classification outcomes named by the spec. -/
inductive CommandClass where
  | Known
  | Unknown
  | Malformed
deriving DecidableEq

/-- The branch taken by `command_parser_parse`, i.e. which of its three
distinct log lines fires: `"Received an empty or null command."` (line 38,
Malformed), `"Command validated: ..."` (lines 46 and 49, Known), or
`"Unknown command: ..."` (line 53, Unknown).  The function result visible to
the caller is only the `bool` of `command_parser_parse`. -/
def command_parser_classify : Option (List Char) → CommandClass
  | none => .Malformed
  | some command =>
    if command.length = 0 then .Malformed
    else if command.take 8 = ("SET_FREQ").toList then .Known
    else if command.take 10 = ("GET_STATUS").toList then .Known
    else .Unknown

/-- Counterexample to C5: a Malformed input (NULL) and an Unknown input
(`"PING"`) produce the same caller-visible result — `command_parser_parse`
returns the single C `bool` `false` for both, so the Malformed and Unknown
outcomes are not distinguishable to the caller. -/
theorem C5_counterexample :
    command_parser_parse none = false ∧
    command_parser_parse (some ("PING").toList) = false ∧
    command_parser_parse none = command_parser_parse (some ("PING").toList) := by
  refine ⟨rfl, ?_, ?_⟩ <;> decide

/-- C5 (amended): the parser has three distinct internal outcomes (visible as
three distinct log lines): Malformed for NULL or empty input, Known for a
recognized keyword, Unknown for any other non-empty input — with
`"SET_FREQ:100"` Known, `""` and NULL Malformed, `"PING"` Unknown — but its
return value collapses them to a single `bool`, `true` exactly on Known. -/
theorem C5_classification :
    command_parser_classify none = CommandClass.Malformed ∧
    command_parser_classify (some []) = CommandClass.Malformed ∧
    command_parser_classify (some ("SET_FREQ:100").toList) = CommandClass.Known ∧
    command_parser_classify (some ("PING").toList) = CommandClass.Unknown ∧
    (∀ (a : Char) (s : List Char),
        command_parser_classify (some (a :: s)) ≠ CommandClass.Malformed) ∧
    (∀ command : Option (List Char),
        command_parser_parse command = true ↔
          command_parser_classify command = CommandClass.Known) := by
  refine ⟨by decide, by decide, by decide, by decide, ?_, ?_⟩
  · intro a s
    show (if (a :: s).length = 0 then CommandClass.Malformed
      else if (a :: s).take 8 = ("SET_FREQ").toList then CommandClass.Known
      else if (a :: s).take 10 = ("GET_STATUS").toList then CommandClass.Known
      else CommandClass.Unknown) ≠ CommandClass.Malformed
    split_ifs with h1 h2 h3 <;> simp_all
  · intro command
    match command with
    | none => simp [command_parser_parse, command_parser_classify]
    | some s =>
      show (if s.length = 0 then false
          else if s.take 8 = ("SET_FREQ").toList then true
          else if s.take 10 = ("GET_STATUS").toList then true
          else false) = true ↔
        (if s.length = 0 then CommandClass.Malformed
          else if s.take 8 = ("SET_FREQ").toList then CommandClass.Known
          else if s.take 10 = ("GET_STATUS").toList then CommandClass.Known
          else CommandClass.Unknown) = CommandClass.Known
      split_ifs <;> simp

/-- C6: matching is by fixed-length character comparison against the keyword,
so every string whose first 8 characters are exactly `SET_FREQ` — and every
string whose first 10 characters are exactly `GET_STATUS` — is accepted as a
valid command, even when it is not equal to the keyword itself
(e.g. `"SET_FREQUENCY_X"`). -/
theorem C6_keyword_match_by_first_chars :
    (∀ s : List Char, s.take 8 = ("SET_FREQ").toList →
        command_parser_parse (some s) = true ∧
        command_parser_classify (some s) = CommandClass.Known) ∧
    (∀ s : List Char, s.take 10 = ("GET_STATUS").toList →
        command_parser_parse (some s) = true ∧
        command_parser_classify (some s) = CommandClass.Known) ∧
    command_parser_parse (some ("SET_FREQUENCY_X").toList) = true ∧
    ("SET_FREQUENCY_X").toList ≠ ("SET_FREQ").toList := by
  refine ⟨?_, ?_, by decide, by decide⟩
  · intro s h
    match s with
    | [] => simp at h
    | a :: t =>
      constructor
      · unfold command_parser_parse
        simp [h]
      · unfold command_parser_classify
        simp [h]
  · intro s h
    have h8 : s.take 8 ≠ ("SET_FREQ").toList := by
      intro h8
      have := congrArg (List.take 8) h
      rw [List.take_take] at this
      simp at this
      rw [this] at h8
      exact absurd h8 (by decide)
    match s with
    | [] => simp at h
    | a :: t =>
      constructor
      · unfold command_parser_parse
        simp [h, h8]
      · unfold command_parser_classify
        simp [h, h8]

/-- Witness for C6: the over-long strings `"SET_FREQUENCY_X"` and
`"GET_STATUS_ALL"` are both accepted as valid commands. -/
theorem C6_keyword_match_by_first_chars_witness :
    command_parser_parse (some ("SET_FREQUENCY_X").toList) = true ∧
    command_parser_parse (some ("GET_STATUS_ALL").toList) = true :=
  ⟨(C6_keyword_match_by_first_chars.1 ("SET_FREQUENCY_X").toList (by decide)).1,
   (C6_keyword_match_by_first_chars.2.1 ("GET_STATUS_ALL").toList (by decide)).1⟩

/-! ### Watchdog supervisor (rtos_watchdog.c) -/

/-- `esp_task_wdt_config_t` as filled in by `rtos_watchdog_init`. -/
structure esp_task_wdt_config_t where
  timeout_ms : ℤ
  trigger_panic : Bool
  idle_core_mask : ℕ

/-- `rtos_watchdog_init` (rtos_watchdog.c lines 23-38): the configuration it
passes to `esp_task_wdt_init` — `timeout_ms = timeout_s * 1000`,
`trigger_panic = true` (unconditional panic/restart on a missed deadline),
`idle_core_mask = (1 << 0) | (1 << 1)` (monitor both cores). -/
def rtos_watchdog_init_config (timeout_s : ℤ) : esp_task_wdt_config_t :=
  { timeout_ms := timeout_s * 1000
    trigger_panic := true
    idle_core_mask := (1 <<< 0) ||| (1 <<< 1) }

/-- An event seen by the watchdog timer: one millisecond of elapsed time, or a
feed (`rtos_watchdog_feed` → `esp_task_wdt_reset`, rtos_watchdog.c lines 45-47). -/
inductive WdtEvent where
  | tick
  | feed
deriving DecidableEq

/-- The watchdog timer state: milliseconds since the last feed, and the number
of escalation (panic/restart) events so far. -/
structure WdtState where
  elapsed_ms : ℕ
  escalations : ℕ
deriving DecidableEq

/-- The fresh watchdog state: just fed, no escalation. -/
def wdt_init : WdtState :=
  { elapsed_ms := 0, escalations := 0 }

/-- Modelled from the spec: the deadline behavior of the ESP-IDF task watchdog
behind `esp_task_wdt_init` / `esp_task_wdt_reset` is not part of src (only its
configuration and the feed wrapper are).  Per spec §4.4/§6, the platform timer
"arms a timeout that triggers process restart if not reset before expiry": a
feed resets the clock; when `timeout_ms` elapse without a feed the supervisor
escalates once to an unconditional whole-process restart (with
`trigger_panic = true`), after which the process is restarting — the terminal
state absorbs all further events, so one missed deadline produces exactly one
escalation event. -/
def wdt_step (timeout_ms : ℕ) (s : WdtState) (e : WdtEvent) : WdtState :=
  if s.escalations ≠ 0 then s
  else
    match e with
    | .feed => { s with elapsed_ms := 0 }
    | .tick =>
      if timeout_ms ≤ s.elapsed_ms + 1 then
        { elapsed_ms := s.elapsed_ms + 1, escalations := s.escalations + 1 }
      else
        { s with elapsed_ms := s.elapsed_ms + 1 }

/-- Run the watchdog timer over a list of events. -/
def wdt_run (timeout_ms : ℕ) (s : WdtState) (events : List WdtEvent) : WdtState :=
  events.foldl (wdt_step timeout_ms) s

/-- One 4-second feeding cycle: 4000 ms elapse, then one feed. -/
def feed_every_4s : List WdtEvent :=
  List.replicate 4000 WdtEvent.tick ++ [WdtEvent.feed]

/-- `n` successive repetitions of an event block. -/
def repeatEvents : ℕ → List WdtEvent → List WdtEvent
  | 0, _ => []
  | n + 1, l => l ++ repeatEvents n l

/-- Ticks that stay strictly below the deadline only advance the clock. -/
theorem wdt_run_ticks_safe (timeout_ms : ℕ) :
    ∀ (k : ℕ) (s : WdtState), s.escalations = 0 →
      s.elapsed_ms + k < timeout_ms →
      wdt_run timeout_ms s (List.replicate k WdtEvent.tick)
        = { elapsed_ms := s.elapsed_ms + k, escalations := 0 } := by
  intro k
  induction k with
  | zero =>
    intro s h0 _
    cases s
    simp_all [wdt_run]
  | succ k ih =>
    intro s h0 hlt
    rw [List.replicate_succ]
    show wdt_run timeout_ms (wdt_step timeout_ms s WdtEvent.tick)
      (List.replicate k WdtEvent.tick) = _
    have hstep : wdt_step timeout_ms s WdtEvent.tick
        = { elapsed_ms := s.elapsed_ms + 1, escalations := 0 } := by
      unfold wdt_step
      have hnot : ¬ timeout_ms ≤ s.elapsed_ms + 1 := by omega
      simp [h0, hnot]
    rw [hstep]
    have := ih { elapsed_ms := s.elapsed_ms + 1, escalations := 0 } rfl (by simp; omega)
    simpa [Nat.add_assoc, Nat.add_comm, Nat.add_left_comm] using this

/-- A full 4-second feeding cycle returns a fresh 5000 ms watchdog to the
fresh state. -/
theorem wdt_cycle_safe :
    wdt_run 5000 wdt_init feed_every_4s = wdt_init := by
  unfold feed_every_4s wdt_run
  rw [List.foldl_append]
  have h := wdt_run_ticks_safe 5000 4000 wdt_init rfl (by norm_num [wdt_init])
  unfold wdt_run at h
  rw [h]
  simp [wdt_step, wdt_init]

/-- Any number of 4-second feeding cycles leaves the watchdog fresh. -/
theorem wdt_repeat_safe (n : ℕ) :
    wdt_run 5000 wdt_init (repeatEvents n feed_every_4s) = wdt_init := by
  induction n with
  | zero => rfl
  | succ n ih =>
    unfold repeatEvents wdt_run
    rw [List.foldl_append]
    have h1 := wdt_cycle_safe
    unfold wdt_run at h1 ih
    rw [h1, ih]

/-- Once an escalation has fired, the state is absorbing: no further event
changes it. -/
theorem wdt_run_frozen (timeout_ms : ℕ) :
    ∀ (events : List WdtEvent) (s : WdtState), s.escalations ≠ 0 →
      wdt_run timeout_ms s events = s := by
  intro events
  induction events with
  | nil => intro s _; rfl
  | cons e rest ih =>
    intro s h
    show wdt_run timeout_ms (wdt_step timeout_ms s e) rest = s
    have hstep : wdt_step timeout_ms s e = s := by
      unfold wdt_step; simp [h]
    rw [hstep]
    exact ih s h

/-- Letting the full 5000 ms deadline elapse without a feed fires exactly one
escalation, and everything that happens afterwards leaves that count at one. -/
theorem wdt_miss_escalates_once (tail : List WdtEvent) :
    wdt_run 5000 wdt_init (List.replicate 5000 WdtEvent.tick ++ tail)
      = { elapsed_ms := 5000, escalations := 1 } := by
  unfold wdt_run
  rw [List.foldl_append]
  have h5000 : List.replicate 5000 WdtEvent.tick
      = List.replicate 4999 WdtEvent.tick ++ [WdtEvent.tick] :=
    List.replicate_succ' 4999 WdtEvent.tick
  rw [h5000, List.foldl_append]
  have h := wdt_run_ticks_safe 5000 4999 wdt_init rfl (by norm_num [wdt_init])
  unfold wdt_run at h
  rw [h]
  have hstep : wdt_step 5000 { elapsed_ms := 4999, escalations := 0 } WdtEvent.tick
      = { elapsed_ms := 5000, escalations := 1 } := by
    unfold wdt_step
    norm_num
  simp only [List.foldl_cons, List.foldl_nil, hstep]
  have := wdt_run_frozen 5000 tail { elapsed_ms := 5000, escalations := 1 } (by norm_num)
  unfold wdt_run at this
  exact this

/-- C7: `rtos_watchdog_init` converts its deadline to `timeout_s * 1000` ms and
enables unconditional panic (whole-process restart) on a missed deadline — a
5 s registration gets a 5000 ms deadline; a context fed every 4 s never
escalates, however long it runs; and a single full missed deadline produces
exactly one escalation event, whatever happens afterwards. -/
theorem C7_watchdog_deadline :
    (∀ timeout_s : ℤ,
        (rtos_watchdog_init_config timeout_s).timeout_ms = timeout_s * 1000 ∧
        (rtos_watchdog_init_config timeout_s).trigger_panic = true) ∧
    (rtos_watchdog_init_config 5).timeout_ms = 5000 ∧
    (∀ n : ℕ,
        (wdt_run 5000 wdt_init (repeatEvents n feed_every_4s)).escalations = 0) ∧
    (∀ tail : List WdtEvent,
        (wdt_run 5000 wdt_init
          (List.replicate 5000 WdtEvent.tick ++ tail)).escalations = 1) := by
  refine ⟨fun timeout_s => ⟨rfl, rfl⟩, rfl, fun n => ?_, fun tail => ?_⟩
  · rw [wdt_repeat_safe n]
    rfl
  · rw [wdt_miss_escalates_once tail]

/-! ### Periodic task scheduler (main.c)

Each FreeRTOS task in main.c is `init; while (1) { work...; rtos_watchdog_feed();
vTaskDelay(pdMS_TO_TICKS(period)); }` — an infinite repetition of a fixed cycle
of actions.  The embedding records the body of one cycle as the list of calls
it performs, in program order, together with the static creation parameters
passed to `xTaskCreatePinnedToCore` (main.c lines 136-142). -/

/-- The per-cycle work routines called from the task loops of main.c. -/
inductive WorkItem where
  | bluetooth_run
  | diagnostics_run
  | gate_driver_control_run
  | voltage_sensing_run
  | current_sensing_run
  | battery_monitoring_run
deriving DecidableEq, Fintype

/-- One call inside a task-loop cycle: a work routine, `rtos_watchdog_feed()`,
or `vTaskDelay(pdMS_TO_TICKS(ms))` (a relative, fixed-delay suspension). -/
inductive TaskAction where
  | work : WorkItem → TaskAction
  | feed : TaskAction
  | delay_ms : ℕ → TaskAction
deriving DecidableEq

/-- A statically created periodic task: core and priority from its
`xTaskCreatePinnedToCore` call, its period in ms, and the body of one cycle of
its infinite loop. -/
structure TaskDef where
  core : ℕ
  priority : ℕ
  period_ms : ℕ
  cycle : List TaskAction
deriving DecidableEq

/-- `task_100ms_core_0` (main.c lines 44-51): Bluetooth, core 0, priority 1. -/
def task_100ms_core_0 : TaskDef :=
  { core := 0, priority := 1, period_ms := 100
    cycle := [.work .bluetooth_run, .feed, .delay_ms 100] }

/-- `task_10000ms_core_0` (main.c lines 60-67): diagnostics, core 0, priority 1. -/
def task_10000ms_core_0 : TaskDef :=
  { core := 0, priority := 1, period_ms := 10000
    cycle := [.work .diagnostics_run, .feed, .delay_ms 10000] }

/-- `task_1ms_core_1` (main.c lines 76-83): gate driver, core 1, priority 2. -/
def task_1ms_core_1 : TaskDef :=
  { core := 1, priority := 2, period_ms := 1
    cycle := [.work .gate_driver_control_run, .feed, .delay_ms 1] }

/-- `task_10ms_core_1` (main.c lines 92-101): voltage and current sensing,
core 1, priority 1. -/
def task_10ms_core_1 : TaskDef :=
  { core := 1, priority := 1, period_ms := 10
    cycle := [.work .voltage_sensing_run, .work .current_sensing_run, .feed,
      .delay_ms 10] }

/-- `task_1000ms_core_1` (main.c lines 110-117): battery monitoring, core 1,
priority 1. -/
def task_1000ms_core_1 : TaskDef :=
  { core := 1, priority := 1, period_ms := 1000
    cycle := [.work .battery_monitoring_run, .feed, .delay_ms 1000] }

/-- The five tasks created by `app_main` (main.c lines 136-142). -/
def app_main_tasks : List TaskDef :=
  [task_100ms_core_0, task_10000ms_core_0, task_1ms_core_1, task_10ms_core_1,
   task_1000ms_core_1]

/-- Whether an action is a work call. -/
def TaskAction.isWork : TaskAction → Bool
  | .work _ => true
  | _ => false

/-- Whether an action is a watchdog feed. -/
def TaskAction.isFeed : TaskAction → Bool
  | .feed => true
  | _ => false

/-- Whether an action is a delay. -/
def TaskAction.isDelay : TaskAction → Bool
  | .delay_ms _ => true
  | _ => false

/-- C8: every task created by `app_main` cycles forever through a fixed body
that is a non-empty block of work calls, followed by exactly one watchdog feed,
followed by exactly one suspension of exactly the task's period (fixed-delay):
on every cycle the feed happens after the work and before the delay, the cycle
contains exactly one feed and exactly one delay, and no work call repeats
within a cycle. -/
theorem C8_task_cycle_shape :
    ∀ t ∈ app_main_tasks,
      t.cycle = t.cycle.takeWhile TaskAction.isWork
          ++ [TaskAction.feed, TaskAction.delay_ms t.period_ms] ∧
      t.cycle.takeWhile TaskAction.isWork ≠ [] ∧
      (∀ a ∈ t.cycle.takeWhile TaskAction.isWork, a.isWork = true) ∧
      t.cycle.countP (fun a => a.isFeed) = 1 ∧
      t.cycle.countP (fun a => a.isDelay) = 1 ∧
      (∀ w : WorkItem, t.cycle.countP (fun a => a = TaskAction.work w) ≤ 1) := by
  decide

/-- Witness for C8: instantiating at the sensing task `task_10ms_core_1` — its
cycle is the two sensing work calls, then one feed, then one 10 ms delay. -/
theorem C8_task_cycle_shape_witness :
    task_10ms_core_1.cycle
      = task_10ms_core_1.cycle.takeWhile TaskAction.isWork
          ++ [TaskAction.feed, TaskAction.delay_ms task_10ms_core_1.period_ms] ∧
    task_10ms_core_1.cycle.countP (fun a => a.isFeed) = 1 := by
  have h := C8_task_cycle_shape task_10ms_core_1 (by decide)
  exact ⟨h.1, h.2.2.2.1⟩

end MSRFBoard
